import Mathlib

/-!
Verification of the libsql-lua binding layer (src/lib.rs) against its
natural-language specification.

The binding adapts the asynchronous libsql driver to synchronous Lua-callable
operations. We shallowly embed the binding's handlers as Lean functions over
an explicit model of the driver state. External collaborators (the libsql
engine and the mlua runtime) are parametrised by their outcomes, following the
collaborator contracts stated in the spec; everything written by the binding
itself is translated directly from src/lib.rs.

Rust panics (`expect`/`unwrap`) are modelled as a distinct `panicked` outcome,
separate from the catchable `mlua::Error` results a handler can return.
-/

set_option autoImplicit false

namespace LibsqlLua

/-- libsql::Value — the database-native value sum type. -/
inductive Value where
  | null
  | integer (i : Int)
  | real (r : Float)
  | text (s : String)
  | blob (b : List Nat)

/-- Host (Lua) values, as far as the binding produces them: nil, integers,
floats, strings, sequences (mlua's conversion of a Rust `Vec`), key/value
tables, and registered host functions. -/
inductive LuaValue where
  | nil
  | boolean (b : Bool)
  | integer (i : Int)
  | number (r : Float)
  | str (s : String)
  | seq (vs : List LuaValue)
  | table (fields : List (String × LuaValue))
  | fn (name : String)

/-- Catchable script-level errors (`mlua::Error`): errors the binding raises
via `mlua::Error::external`, and the runtime's argument-conversion failure. -/
inductive LuaError where
  | external (msg : String)
  | typeMismatch (expected : String)
deriving DecidableEq

/-- Outcome of one synchronous handler call: a success value, a catchable Lua
error, or a Rust panic (`expect` on a `None`/`Err`), which is not an
`mlua::Error` value at all. -/
inductive HandlerResult (α : Type) where
  | ok (a : α)
  | err (e : LuaError)
  | panicked (msg : String)

/-! ## Value Marshaller (src/lib.rs lines 11-22)

`impl IntoLua for Ser<libsql::Value>`. The per-primitive conversions are the
mlua runtime's own `IntoLua` instances; per the spec's collaborator contract
they produce a defined host value (allocation failure is not modelled). -/

def i64_into_lua (i : Int) : Except LuaError LuaValue := .ok (.integer i)

def f64_into_lua (r : Float) : Except LuaError LuaValue := .ok (.number r)

def string_into_lua (s : String) : Except LuaError LuaValue := .ok (.str s)

def blob_into_lua (b : List Nat) : Except LuaError LuaValue :=
  .ok (.seq (b.map fun n => .integer (Int.ofNat n)))

/-- `Ser<libsql::Value>::into_lua` — the binding's match over the five
variants (src/lib.rs 14-20). -/
def Ser.into_lua : Value → Except LuaError LuaValue
  | .null => .ok .nil
  | .integer i => i64_into_lua i
  | .real r => f64_into_lua r
  | .text s => string_into_lua s
  | .blob b => blob_into_lua b

theorem Ser.into_lua_total (v : Value) : ∃ h, Ser.into_lua v = .ok h := by
  cases v <;> exact ⟨_, rfl⟩

/-! ## Engine transaction model

The libsql transaction is an external collaborator; we parametrise it by the
outcomes its async calls resolve to. The binding drives each call to
completion with `block_on`, so an outcome is simply an `Except`. -/

structure EngineRow where
  values : List Value
  names : List String

/-- libsql::Rows — per the spec, the cursor holds the fixed column count
observed when the query executed, and a stream of pending fetch outcomes
(record, or engine error; the empty list is exhaustion). -/
structure EngineRows where
  colCount : Int
  pending : List (Except String EngineRow)

structure EngineTx where
  execRes : String → List String → Except String Nat
  execBatchRes : String → Except String Unit
  queryRes : String → List String → Except String EngineRows
  commitRes : Except String Unit
  rollbackRes : Except String Unit
  autocommit : Bool
  changesVal : Nat
  lastRowid : Int

/-! ## Transaction userdata (src/lib.rs 24-89)

`pub struct Transaction(Option<Cell<libsql::Transaction>>)`: the state is the
nullable slot. `Deref`/`DerefMut` (lines 26-45) call `.expect("some")` on the
slot, so every non-terminal method panics when the slot is empty. -/

/-- `Transaction::deref` (src/lib.rs 28-34): `self.0.as_ref().expect("some")`. -/
def Transaction.deref (s : Option EngineTx) : HandlerResult EngineTx :=
  match s with
  | none => .panicked "some"
  | some t => .ok t

/-- `execute` handler (src/lib.rs 49-51): deref, then
`block_on(tx.execute(..)).map_err(external)`. -/
def Transaction.execute (s : Option EngineTx) (sql : String) (params : List String) :
    HandlerResult Nat :=
  match s with
  | none => .panicked "some"
  | some t =>
    match t.execRes sql params with
    | .ok n => .ok n
    | .error m => .err (.external m)

/-- `execute_batch` handler (src/lib.rs 53-55). -/
def Transaction.execute_batch (s : Option EngineTx) (sql : String) : HandlerResult Unit :=
  match s with
  | none => .panicked "some"
  | some t =>
    match t.execBatchRes sql with
    | .ok u => .ok u
    | .error m => .err (.external m)

/-- `query` handler (src/lib.rs 59-63): the engine rows are wrapped in the
`Rows` userdata. -/
def Transaction.query (s : Option EngineTx) (sql : String) (params : List String) :
    HandlerResult EngineRows :=
  match s with
  | none => .panicked "some"
  | some t =>
    match t.queryRes sql params with
    | .ok rs => .ok rs
    | .error m => .err (.external m)

/-- `is_autocommit` handler (src/lib.rs 57): passthrough via deref. -/
def Transaction.is_autocommit (s : Option EngineTx) : HandlerResult Bool :=
  match s with
  | none => .panicked "some"
  | some t => .ok t.autocommit

/-- `changes` handler (src/lib.rs 85): passthrough via deref. -/
def Transaction.changes (s : Option EngineTx) : HandlerResult Nat :=
  match s with
  | none => .panicked "some"
  | some t => .ok t.changesVal

/-- `last_insert_rowid` handler (src/lib.rs 87): passthrough via deref. -/
def Transaction.last_insert_rowid (s : Option EngineTx) : HandlerResult Int :=
  match s with
  | none => .panicked "some"
  | some t => .ok t.lastRowid

/-- Result of a terminal call: the Lua-visible outcome, the slot afterwards,
and whether the engine commit/rollback was actually invoked. -/
structure TermResult where
  result : HandlerResult Unit
  state : Option EngineTx
  engineCalled : Bool

/-- `commit` handler (src/lib.rs 65-73):
`tx.0.take().ok_or_else(external "Transaction already committed")?` then
`block_on(.commit()).map_err(external)`. `take()` empties the slot before the
engine call in every path. -/
def Transaction.commit (s : Option EngineTx) : TermResult :=
  match s with
  | none => ⟨.err (.external "Transaction already committed"), none, false⟩
  | some t =>
    ⟨match t.commitRes with
      | .ok _ => .ok ()
      | .error m => .err (.external m),
     none, true⟩

/-- `rollback` handler (src/lib.rs 75-83); same structure (and the same
already-committed message) with the engine rollback call. -/
def Transaction.rollback (s : Option EngineTx) : TermResult :=
  match s with
  | none => ⟨.err (.external "Transaction already committed"), none, false⟩
  | some t =>
    ⟨match t.rollbackRes with
      | .ok _ => .ok ()
      | .error m => .err (.external m),
     none, true⟩

/-- A terminal operation: commit or rollback. -/
inductive TermOp where
  | commit
  | rollback

def Transaction.runTerm : TermOp → Option EngineTx → TermResult
  | .commit => Transaction.commit
  | .rollback => Transaction.rollback

/-- The engine outcome the terminal operation would re-execute. -/
def EngineTx.termRes : TermOp → EngineTx → Except String Unit
  | .commit, t => t.commitRes
  | .rollback, t => t.rollbackRes

theorem runTerm_state_none (op : TermOp) (s : Option EngineTx) :
    (Transaction.runTerm op s).state = none := by
  cases op <;> cases s <;> rfl

/-! ## Driver row accessors

Modelled from the spec: `libsql::Row::get_value` and `libsql::Row::column_name`
are the engine's bounds-checked positional reads (spec section 4.2: reads
outside the record's bounds fail — `get_value` with an engine error,
`column_name` with an absence). The record itself carries its values and
column names. -/

def EngineRow.get_value (r : EngineRow) (i : Int) : Except String Value :=
  if 0 ≤ i ∧ i < (r.values.length : Int) then .ok (r.values.getD i.toNat .null)
  else .error "index out of range"

def EngineRow.column_name (r : EngineRow) (i : Int) : Option String :=
  if 0 ≤ i ∧ i < (r.names.length : Int) then some (r.names.getD i.toNat "")
  else none

/-! ## Row userdata (src/lib.rs 91-177)

`pub struct Row(libsql::Row, i32)`: an engine record plus the column count
captured from the parent cursor at construction. -/

structure Row where
  record : EngineRow
  count : Int

/-- `Row::get` handler (src/lib.rs 135-137):
`row.get_value(i).map(Ser).map_err(external)`; the returned `Ser` is then
marshalled to a host value by the runtime via `into_lua`. -/
def Row.get (row : Row) (i : Int) : HandlerResult LuaValue :=
  match row.record.get_value i with
  | .error m => .err (.external m)
  | .ok v =>
    match Ser.into_lua v with
    | .ok h => .ok h
    | .error e => .err e

/-- `Row::column_count` handler (src/lib.rs 155): returns the captured count
`row.1`. -/
def Row.column_count (row : Row) : HandlerResult Int := .ok row.count

/-- `Row::column_name` handler (src/lib.rs 139-141): returns the driver's
optional name as-is (nil when absent). -/
def Row.column_name (row : Row) (i : Int) : HandlerResult (Option String) :=
  .ok (row.record.column_name i)

/-- The Rust iteration range `0..row.1` as a list of `i32` indices (empty when
the bound is not positive, as in Rust). -/
def intRange (n : Int) : List Int := (List.range n.toNat).map Int.ofNat

/-- Models Rust's `String::from_utf8_lossy` on the fragment the binding needs:
a defined textual rendering of the byte sequence. -/
def utf8_lossy (b : List Nat) : String := String.mk (b.map Char.ofNat)

/-- The `__tostring` rendering of one value (src/lib.rs 116-122). -/
def renderValue : Value → String
  | .null => "null"
  | .integer i => toString i
  | .real f => toString f
  | .text s => s
  | .blob b => utf8_lossy b

/-- One field of `__tostring` (src/lib.rs 110-124): `get_value(idx).expect("value")`
then `column_name(idx).expect("column name")` — both panic on failure. -/
def tostringField (record : EngineRow) (idx : Int) : HandlerResult String :=
  match record.get_value idx with
  | .error _ => .panicked "value"
  | .ok v =>
    match record.column_name idx with
    | none => .panicked "column name"
    | some name => .ok (name ++ ": " ++ renderValue v)

def collectFields (record : EngineRow) : List Int → HandlerResult (List String)
  | [] => .ok []
  | i :: rest =>
    match tostringField record i with
    | .ok s =>
      match collectFields record rest with
      | .ok ss => .ok (s :: ss)
      | .err e => .err e
      | .panicked m => .panicked m
    | .err e => .err e
    | .panicked m => .panicked m

/-- `Row` `__tostring` metamethod (src/lib.rs 108-133). -/
def Row.tostring (row : Row) : HandlerResult String :=
  match collectFields row.record (intRange row.count) with
  | .ok fields =>
    .ok ("Row \x7b\n                    " ++ String.intercalate ",\n" fields
      ++ "\n                \x7d")
  | .err e => .err e
  | .panicked m => .panicked m

/-- One entry of `into_table`'s first loop (src/lib.rs 160-165):
`column_name(idx).expect("column name")` (panics on absence), then
`get_value(idx).map_err(external)?` (catchable), then the value is marshalled
by `table.set`. -/
def intoTableEntry (record : EngineRow) (idx : Int) : HandlerResult (String × LuaValue) :=
  match record.column_name idx with
  | none => .panicked "column name"
  | some name =>
    match record.get_value idx with
    | .error m => .err (.external m)
    | .ok v =>
      match Ser.into_lua v with
      | .ok h => .ok (name, h)
      | .error e => .err e

/-- One entry of `into_table`'s second loop (src/lib.rs 167-172):
`column_name(idx).expect("column name")` and
`get_value(idx).expect("column value")` — both panic on failure. -/
def intoTableEntry2 (record : EngineRow) (idx : Int) : HandlerResult (String × LuaValue) :=
  match record.column_name idx with
  | none => .panicked "column name"
  | some name =>
    match record.get_value idx with
    | .error _ => .panicked "column value"
    | .ok v =>
      match Ser.into_lua v with
      | .ok h => .ok (name, h)
      | .error e => .err e

def collectEntries (entry : EngineRow → Int → HandlerResult (String × LuaValue))
    (record : EngineRow) : List Int → HandlerResult (List (String × LuaValue))
  | [] => .ok []
  | i :: rest =>
    match entry record i with
    | .ok p =>
      match collectEntries entry record rest with
      | .ok ps => .ok (p :: ps)
      | .err e => .err e
      | .panicked m => .panicked m
    | .err e => .err e
    | .panicked m => .panicked m

/-- `Row::into_table` handler (src/lib.rs 157-175): builds (and discards) a
first table with the first loop's entries, then returns
`lua.create_table_from` of the second loop's entries. -/
def Row.into_table (row : Row) : HandlerResult LuaValue :=
  match collectEntries intoTableEntry row.record (intRange row.count) with
  | .err e => .err e
  | .panicked m => .panicked m
  | .ok _ =>
    match collectEntries intoTableEntry2 row.record (intRange row.count) with
    | .ok entries => .ok (.table entries)
    | .err e => .err e
    | .panicked m => .panicked m

/-! ## Rows userdata (src/lib.rs 179-220) -/

/-- `Rows::next` handler (src/lib.rs 196-200):
`block_on(rows.next()).map_err(external)?.map(|r| Row(r, rows.column_count()))`.
Returns the Lua outcome and the advanced cursor. -/
def Rows.next (rs : EngineRows) : HandlerResult (Option Row) × EngineRows :=
  match rs.pending with
  | [] => (.ok none, rs)
  | .error m :: rest => (.err (.external m), ⟨rs.colCount, rest⟩)
  | .ok r :: rest => (.ok (some ⟨r, rs.colCount⟩), ⟨rs.colCount, rest⟩)

/-- `Rows::column_count` handler (src/lib.rs 202): delegates to the driver's
fixed count. -/
def Rows.column_count (rs : EngineRows) : HandlerResult Int := .ok rs.colCount

/-- The cursor state after one `next` call. -/
def Rows.advance (rs : EngineRows) : EngineRows := (Rows.next rs).2

/-- The cursor state after `n` successive `next` calls. -/
def Rows.advanceN : Nat → EngineRows → EngineRows
  | 0, rs => rs
  | n + 1, rs => Rows.advanceN n (Rows.advance rs)

theorem advance_colCount (rs : EngineRows) : (Rows.advance rs).colCount = rs.colCount := by
  unfold Rows.advance Rows.next
  cases h : rs.pending with
  | nil => rfl
  | cons hd tl => cases hd <;> rfl

theorem advanceN_colCount (n : Nat) (rs : EngineRows) :
    (Rows.advanceN n rs).colCount = rs.colCount := by
  induction n generalizing rs with
  | zero => rfl
  | succ k ih => simpa [Rows.advanceN, advance_colCount] using ih (Rows.advance rs)

/-! ## Runtime argument conversion at the call boundary

The handlers for `execute`/`query` declare their arguments as
`(String, Vec<String>)` (src/lib.rs 49, 59, 240-251): the mlua runtime
converts the script's arguments to these Rust types before the handler body —
and hence any engine call — can run. -/

/-- Modelled from the spec: the scripting runtime's conversion of one host
argument to a Rust `String` parameter (spec section 4.1: `from_host` is
restricted to strings for positional query parameters; any other host type
fails with a TypeMismatch error before reaching the engine). The conversion
itself lives in the mlua runtime, outside this repository. -/
def fromLuaString : LuaValue → Except LuaError String
  | .str s => .ok s
  | _ => .error (.typeMismatch "String")

/-- The runtime's conversion of the `Vec<String>` parameter list, element by
element, first failure wins. -/
def fromLuaStringList : List LuaValue → Except LuaError (List String)
  | [] => .ok []
  | v :: rest =>
    match fromLuaString v with
    | .error e => .error e
    | .ok s =>
      match fromLuaStringList rest with
      | .ok ss => .ok (s :: ss)
      | .error e => .error e

def LuaValue.isStr : LuaValue → Bool
  | .str _ => true
  | _ => false

theorem fromLuaStringList_nonstring (vs : List LuaValue) (v : LuaValue)
    (hm : v ∈ vs) (hs : v.isStr = false) :
    fromLuaStringList vs = .error (.typeMismatch "String") := by
  induction vs with
  | nil => cases hm
  | cons hd tl ih =>
    rcases List.mem_cons.mp hm with h | h
    · subst h
      cases v <;> simp_all [fromLuaStringList, fromLuaString, LuaValue.isStr]
    · cases hhd : fromLuaString hd with
      | error e =>
        cases hd <;> simp_all [fromLuaStringList, fromLuaString]
      | ok s =>
        cases hd <;> simp_all [fromLuaStringList, fromLuaString, ih h]

/-! ## Connection userdata (src/lib.rs 222-265) -/

structure EngineConn where
  execRes : String → List String → Except String Nat
  queryRes : String → List String → Except String EngineRows
  changesVal : Nat
  lastRowid : Int
  txRes : Except String EngineTx

/-- `Connection::execute` handler body (src/lib.rs 240-245):
`block_on(conn.execute(..)).map_err(external)`. -/
def Connection.execute (conn : EngineConn) (sql : String) (params : List String) :
    HandlerResult Nat :=
  match conn.execRes sql params with
  | .ok n => .ok n
  | .error m => .err (.external m)

/-- `Connection::query` handler body (src/lib.rs 247-251). -/
def Connection.query (conn : EngineConn) (sql : String) (params : List String) :
    HandlerResult EngineRows :=
  match conn.queryRes sql params with
  | .ok rs => .ok rs
  | .error m => .err (.external m)

/-- `Connection::transaction` handler (src/lib.rs 259-263): wraps the begun
engine transaction in a full slot (`Some(Cell::new(..))` — the Active state). -/
def Connection.transaction (conn : EngineConn) : HandlerResult (Option EngineTx) :=
  match conn.txRes with
  | .ok t => .ok (some t)
  | .error m => .err (.external m)

/-- A call at the script boundary: the Lua-visible result paired with whether
the engine was reached. The runtime converts the `(String, Vec<String>)`
arguments before the handler body runs. -/
def Connection.executeCall (conn : EngineConn) (sqlArg : LuaValue)
    (paramArgs : List LuaValue) : HandlerResult Nat × Bool :=
  match fromLuaString sqlArg with
  | .error e => (.err e, false)
  | .ok sql =>
    match fromLuaStringList paramArgs with
    | .error e => (.err e, false)
    | .ok params => (Connection.execute conn sql params, true)

def Connection.queryCall (conn : EngineConn) (sqlArg : LuaValue)
    (paramArgs : List LuaValue) : HandlerResult EngineRows × Bool :=
  match fromLuaString sqlArg with
  | .error e => (.err e, false)
  | .ok sql =>
    match fromLuaStringList paramArgs with
    | .error e => (.err e, false)
    | .ok params => (Connection.query conn sql params, true)

def Transaction.executeCall (s : Option EngineTx) (sqlArg : LuaValue)
    (paramArgs : List LuaValue) : HandlerResult Nat × Bool :=
  match fromLuaString sqlArg with
  | .error e => (.err e, false)
  | .ok sql =>
    match fromLuaStringList paramArgs with
    | .error e => (.err e, false)
    | .ok params => (Transaction.execute s sql params, s.isSome)

def Transaction.queryCall (s : Option EngineTx) (sqlArg : LuaValue)
    (paramArgs : List LuaValue) : HandlerResult EngineRows × Bool :=
  match fromLuaString sqlArg with
  | .error e => (.err e, false)
  | .ok sql =>
    match fromLuaStringList paramArgs with
    | .error e => (.err e, false)
    | .ok params => (Transaction.query s sql params, s.isSome)

/-! ## Database handle and module factories (src/lib.rs 267-317) -/

structure EngineDb where
  connectRes : Except String EngineConn

/-- `Database::connect` handler (src/lib.rs 284-287). -/
def Database.connect (db : EngineDb) : HandlerResult EngineConn :=
  match db.connectRes with
  | .ok c => .ok c
  | .error m => .err (.external m)

/-- `open_in_memory` (src/lib.rs 290-294), parametrised by the outcome of the
engine's `Builder::new_local(":memory:").build()`. -/
def open_in_memory (build : Except String EngineDb) : Except LuaError EngineDb :=
  match build with
  | .ok db => .ok db
  | .error m => .error (.external m)

/-- `open_file` (src/lib.rs 296-300), parametrised by the builder outcome for
the given path. -/
def open_file (build : String → Except String EngineDb) (path : String) :
    Except LuaError EngineDb :=
  match build path with
  | .ok db => .ok db
  | .error m => .error (.external m)

/-- `open_remote` (src/lib.rs 302-306), parametrised by the builder outcome
for the given url and token. -/
def open_remote (build : String → String → Except String EngineDb)
    (url token : String) : Except LuaError EngineDb :=
  match build url token with
  | .ok db => .ok db
  | .error m => .error (.external m)

/-- The module entry point `libsql_core` (src/lib.rs 308-317): creates the
module table, registers the three factory functions on it — and then returns
`Err(mlua::Error::external("Not implemented"))` instead of the module. -/
def libsql_core : Except LuaError LuaValue :=
  let module : LuaValue := .table
    [("open_in_memory", .fn "open_in_memory"),
     ("open", .fn "open_file"),
     ("open_remote", .fn "open_remote")]
  match module with
  | _ => .error (.external "Not implemented")

/-! ## Concrete fixtures used by counterexamples and witnesses -/

/-- A live engine transaction whose commit fails with an engine error. -/
def txFailing : EngineTx :=
  ⟨fun _ _ => .ok 0, fun _ => .ok (), fun _ _ => .ok ⟨0, []⟩,
   .error "disk full", .error "disk full", false, 0, 0⟩

/-- A healthy live engine transaction with observed counters. -/
def txLive : EngineTx :=
  ⟨fun _ _ => .ok 1, fun _ => .ok (), fun _ _ => .ok ⟨1, [.ok ⟨[.integer 1], ["a"]⟩]⟩,
   .ok (), .ok (), false, 7, 42⟩

/-- A two-column cursor with one pending record. -/
def rowsTwoCol : EngineRows := ⟨2, [.ok ⟨[.integer 1, .text "x"], ["a", "b"]⟩]⟩

/-- The row the cursor `rowsTwoCol` yields on its first `next`. -/
def rowTwoCol : Row := ⟨⟨[.integer 1, .text "x"], ["a", "b"]⟩, 2⟩

/-- A one-column cursor with one pending record. -/
def rowsOneCol : EngineRows := ⟨1, [.ok ⟨[.integer 5], ["a"]⟩]⟩

/-- The row the cursor `rowsOneCol` yields on its first `next`. -/
def rowOneCol : Row := ⟨⟨[.integer 5], ["a"]⟩, 1⟩

/-- A row whose engine record has a value but no column name at index 0. -/
def rowNoName : Row := ⟨⟨[.integer 1], []⟩, 1⟩

/-- A row whose engine record fails to produce a value at index 0. -/
def rowNoValue : Row := ⟨⟨[], ["a"]⟩, 1⟩

/-- A healthy engine connection. -/
def connLive : EngineConn :=
  ⟨fun _ _ => .ok 1, fun _ _ => .ok ⟨0, []⟩, 0, 0, .error "no tx"⟩

/-! ## The claims -/

/-- C1: at most one terminal operation succeeds. The first commit or rollback
(whatever its engine outcome) leaves the slot empty, and every subsequent
commit or rollback on the same Transaction fails with the AlreadyFinalized
error ("Transaction already committed") without re-executing the engine
call. -/
theorem terminal_ops_absorbing (s : Option EngineTx) (op1 op2 : TermOp) :
    (Transaction.runTerm op1 s).state = none ∧
    Transaction.runTerm op2 (Transaction.runTerm op1 s).state =
      ⟨.err (.external "Transaction already committed"), none, false⟩ := by
  refine ⟨runTerm_state_none op1 s, ?_⟩
  rw [runTerm_state_none op1 s]
  cases op2 <;> rfl

/-- C2: loading the module does not return the module value: `libsql_core`
registers the three factories on the module table and then returns the
external "Not implemented" error, so the script-side load fails instead of
exposing the factories. -/
theorem libsql_core_load_fails :
    libsql_core = .error (.external "Not implemented") := rfl

/-- C3: contrary to the claim, after the slot has been emptied by a terminal
operation, execute, execute_batch and query do not fail with a catchable
programming-error-kind error: the `Deref` of the emptied slot panics
(`expect("some")`), which is not an `mlua::Error` at all. -/
theorem post_terminal_ops_panic (s : Option EngineTx) (op : TermOp)
    (sql : String) (params : List String) :
    Transaction.execute (Transaction.runTerm op s).state sql params = .panicked "some" ∧
    Transaction.execute_batch (Transaction.runTerm op s).state sql = .panicked "some" ∧
    Transaction.query (Transaction.runTerm op s).state sql params = .panicked "some" := by
  rw [runTerm_state_none]
  exact ⟨rfl, rfl, rfl⟩

/-- C4: if the engine call inside commit or rollback fails, the slot is still
emptied (`take()` runs before the engine call), the engine was indeed invoked,
and the engine error is surfaced to the caller. -/
theorem failed_terminal_consumes_slot (t : EngineTx) (op : TermOp) (m : String)
    (h : t.termRes op = .error m) :
    Transaction.runTerm op (some t) = ⟨.err (.external m), none, true⟩ := by
  cases op with
  | commit =>
    simp only [Transaction.runTerm, Transaction.commit, EngineTx.termRes] at h ⊢
    rw [h]
  | rollback =>
    simp only [Transaction.runTerm, Transaction.rollback, EngineTx.termRes] at h ⊢
    rw [h]

theorem failed_terminal_consumes_slot_witness :
    txFailing.termRes .commit = .error "disk full" ∧
    Transaction.runTerm .commit (some txFailing) =
      ⟨.err (.external "disk full"), none, true⟩ :=
  ⟨rfl, failed_terminal_consumes_slot txFailing .commit "disk full" rfl⟩

/-- C5: the database-value-to-host conversion is total: every Value variant
marshals to a defined host value and the conversion never fails, and Null maps
to the host's nil. -/
theorem into_lua_total_null_to_nil (v : Value) :
    (∃ h, Ser.into_lua v = .ok h) ∧ Ser.into_lua Value.null = .ok LuaValue.nil :=
  ⟨Ser.into_lua_total v, rfl⟩

/-- C6: the column count is fixed when the query executes: `column_count()` on
the cursor is unchanged by one or any number of `next()` calls, and every Row
returned by `next()` captures that count at construction, so its own
`column_count()` returns the same value for the Row's whole life. -/
theorem column_count_stable (rs : EngineRows) :
    Rows.column_count (Rows.next rs).2 = Rows.column_count rs ∧
    (∀ n : Nat, Rows.column_count (Rows.advanceN n rs) = Rows.column_count rs) ∧
    (∀ row : Row, (Rows.next rs).1 = .ok (some row) →
      Row.column_count row = .ok rs.colCount) := by
  refine ⟨congrArg HandlerResult.ok (advance_colCount rs),
    fun n => congrArg HandlerResult.ok (advanceN_colCount n rs), ?_⟩
  intro row h
  cases hp : rs.pending with
  | nil => simp [Rows.next, hp] at h
  | cons hd tl =>
    cases hd with
    | error m => simp [Rows.next, hp] at h
    | ok r =>
      simp [Rows.next, hp] at h
      rw [← h]
      rfl

theorem column_count_stable_witness :
    Rows.column_count (Rows.advanceN 3 rowsTwoCol) = Rows.column_count rowsTwoCol ∧
    Row.column_count rowTwoCol = .ok rowsTwoCol.colCount :=
  ⟨(column_count_stable rowsTwoCol).2.1 3,
   (column_count_stable rowsTwoCol).2.2 rowTwoCol rfl⟩

/-- C7: for a Row obtained from a cursor whose record width matches the
cursor's column count n, `get(i)` succeeds with a marshalled host value for
every 0 ≤ i < n and fails with the engine's out-of-range error for every
index outside that range. -/
theorem row_get_bounds (rs : EngineRows) (row : Row) (i : Int)
    (hrow : (Rows.next rs).1 = .ok (some row))
    (hwf : (row.record.values.length : Int) = rs.colCount) :
    ((0 ≤ i ∧ i < rs.colCount) → ∃ h, Row.get row i = .ok h) ∧
    (¬(0 ≤ i ∧ i < rs.colCount) →
      Row.get row i = .err (.external "index out of range")) := by
  constructor
  · intro hin
    have hin2 : 0 ≤ i ∧ i < (row.record.values.length : Int) := by
      rw [hwf]; exact hin
    obtain ⟨h, hh⟩ := Ser.into_lua_total (row.record.values.getD i.toNat .null)
    exact ⟨h, by simp only [Row.get, EngineRow.get_value, if_pos hin2]; rw [hh]⟩
  · intro hout
    have hout2 : ¬(0 ≤ i ∧ i < (row.record.values.length : Int)) := by
      rw [hwf]; exact hout
    simp [Row.get, EngineRow.get_value, if_neg hout2]

theorem row_get_bounds_witness :
    (∃ h, Row.get rowOneCol 0 = .ok h) ∧
    Row.get rowOneCol 5 = .err (.external "index out of range") :=
  ⟨(row_get_bounds rowsOneCol rowOneCol 0 rfl (by decide)).1 (by decide),
   (row_get_bounds rowsOneCol rowOneCol 5 rfl (by decide)).2 (by decide)⟩

/-- C8 counterexample: after a successful commit of a live transaction whose
observed counters are changes = 7, last_insert_rowid = 42, autocommit = false,
the changes/is_autocommit/last_insert_rowid handlers do not return those last
observed values — each panics on the emptied slot. -/
theorem passthrough_after_terminal_cex :
    Transaction.changes (Transaction.commit (some txLive)).state = .panicked "some" ∧
    Transaction.is_autocommit (Transaction.commit (some txLive)).state = .panicked "some" ∧
    Transaction.last_insert_rowid (Transaction.commit (some txLive)).state =
      .panicked "some" :=
  ⟨rfl, rfl, rfl⟩

/-- C8 (amended): is_autocommit, changes and last_insert_rowid are read-only
passthroughs valid on an Active transaction, returning the engine's current
values; after a terminal operation the emptied slot makes each of them panic
rather than return a last observed value. -/
theorem passthrough_active_only (t : EngineTx) (op : TermOp) :
    Transaction.changes (some t) = .ok t.changesVal ∧
    Transaction.is_autocommit (some t) = .ok t.autocommit ∧
    Transaction.last_insert_rowid (some t) = .ok t.lastRowid ∧
    Transaction.changes (Transaction.runTerm op (some t)).state = .panicked "some" ∧
    Transaction.is_autocommit (Transaction.runTerm op (some t)).state = .panicked "some" ∧
    Transaction.last_insert_rowid (Transaction.runTerm op (some t)).state =
      .panicked "some" := by
  rw [runTerm_state_none]
  exact ⟨rfl, rfl, rfl, rfl, rfl, rfl⟩

/-- C9: contrary to the claim, an engine failure while reading a column name
or a value inside `into_table` or the `__tostring` formatter is not surfaced
as a catchable error: the `expect` calls panic. Shown at a row whose record
has no column name at index 0, and at a row whose record yields no value at
index 0. -/
theorem row_format_engine_failure_panics :
    Row.into_table rowNoName = .panicked "column name" ∧
    Row.tostring rowNoName = .panicked "column name" ∧
    Row.tostring rowNoValue = .panicked "value" :=
  ⟨rfl, rfl, rfl⟩

/-- C10: a non-string host value at any parameter position makes execute and
query on both Connection and Transaction fail with the runtime's TypeMismatch
conversion error raised before the handler body runs, so the engine is never
called. -/
theorem nonstring_param_rejected (conn : EngineConn) (s : Option EngineTx)
    (sqlText : String) (paramArgs : List LuaValue) (v : LuaValue)
    (hm : v ∈ paramArgs) (hs : v.isStr = false) :
    Connection.executeCall conn (.str sqlText) paramArgs =
      (.err (.typeMismatch "String"), false) ∧
    Connection.queryCall conn (.str sqlText) paramArgs =
      (.err (.typeMismatch "String"), false) ∧
    Transaction.executeCall s (.str sqlText) paramArgs =
      (.err (.typeMismatch "String"), false) ∧
    Transaction.queryCall s (.str sqlText) paramArgs =
      (.err (.typeMismatch "String"), false) := by
  have h := fromLuaStringList_nonstring paramArgs v hm hs
  refine ⟨?_, ?_, ?_, ?_⟩ <;>
    simp [Connection.executeCall, Connection.queryCall, Transaction.executeCall,
      Transaction.queryCall, fromLuaString, h]

theorem nonstring_param_rejected_witness :
    Connection.executeCall connLive (.str "SELECT ?") [.integer 3] =
      (.err (.typeMismatch "String"), false) ∧
    Connection.queryCall connLive (.str "SELECT ?") [.integer 3] =
      (.err (.typeMismatch "String"), false) ∧
    Transaction.executeCall (some txLive) (.str "SELECT ?") [.integer 3] =
      (.err (.typeMismatch "String"), false) ∧
    Transaction.queryCall (some txLive) (.str "SELECT ?") [.integer 3] =
      (.err (.typeMismatch "String"), false) :=
  nonstring_param_rejected connLive (some txLive) "SELECT ?" [.integer 3]
    (.integer 3) (by simp) rfl

end LibsqlLua
